import Mathlib

/-!
Shallow embedding of the OpenShift bootstrap reconciliation engine
(`pkg/cmd/server/origin/ensure.go`).

Each Go function is embedded as a pure Lean function from an oracle of
external-collaborator responses (namespace store, role-binding store,
security-policy store, cluster-policy registry) to the trace of observable
effects the function performs: store reads/writes, sleeps, and log calls at
their severities.  Errors from the collaborators follow the taxonomy of
`k8s.io/apimachinery/pkg/api/errors`: NotFound, AlreadyExists, Conflict, other.
-/

namespace Ensure

/-- Error taxonomy of the external stores, as distinguished by
`kapierror.IsNotFound`, `kapierror.IsAlreadyExists`, `kapierror.IsConflict`. -/
inductive KErr where
  | notFound
  | alreadyExists
  | conflict
  | otherErr (msg : String)
  deriving DecidableEq, Repr

/-- Observable effects of the bootstrap functions: store operations, sleeps and
log calls.  `logError` is glog.Errorf (error severity), `logInfo` is
glog.Infof, `logV2` is glog.V(2).Infof (verbose), `handleError` is
`utilruntime.HandleError`. -/
inductive Event where
  | getNs (name : String)
  | createNs (name : String)
  | updateNs (name : String) (annots : List (String × String))
  | sleepSeconds (n : Nat)
  | addRoleGrant (nsName roleName : String)
  | createSCC (name : String)
  | getClusterPolicy (name : String)
  | overwriteBootstrapPolicy (file : String)
  | createRole (nsName roleName : String)
  | createRoleBinding (nsName roleName : String)
  | reconcileClusterRole (roleName : String)
  | reconcileClusterRoleBinding (roleName : String)
  | logError (msg : String)
  | logInfo (msg : String)
  | logV2 (msg : String)
  | handleError (msg : String)
  deriving DecidableEq, Repr

/-- A namespace object: name plus annotation map (association list, keys unique
in practice; lookup takes the first match, as a Go map has at most one). -/
structure NsObj where
  name : String
  annots : List (String × String)
  deriving DecidableEq, Repr

/-- `kapierror.IsNotFound` on the outcome of a fallible call: true exactly when
the call failed with NotFound (a nil error is not NotFound). -/
def isNotFoundE {α : Type} : Except KErr α → Bool
  | Except.error KErr.notFound => true
  | _ => false

/-- Go map read `m[k]` on the annotation list. -/
def lookupAnn (xs : List (String × String)) (k : String) : Option String :=
  match xs.find? (fun p => p.fst = k) with
  | some p => some p.snd
  | none => none

/-- Go map write `m[k] = v` on the annotation list. -/
def setAnn (xs : List (String × String)) (k v : String) : List (String × String) :=
  if xs.any (fun p => p.fst = k) then
    xs.map (fun p => if p.fst = k then (k, v) else p)
  else xs ++ [(k, v)]

/-- A desired grant from the bootstrap table: role reference plus subjects
(`binding.RoleRef.Name`, `binding.RoleRef.Namespace`, `binding.Subjects`). -/
structure RoleBindingSpec where
  roleName : String
  roleNamespace : String
  subjects : List String
  deriving DecidableEq, Repr

/-- Modelled from the spec: the retry-policy primitive
(`retry.RetryOnConflict(retry.DefaultRetry, fn)` of the external Kubernetes
client library, consumed but not defined by this repository).  Per the spec it
"retries it on version-conflict up to a bounded count with a defined backoff;
returns terminal error otherwise".  `steps` is the bounded attempt budget;
`fn i` is the outcome of the i-th attempt (`none` = success).  Exhausting the
budget on conflicts returns the conflict error; a non-conflict outcome is
returned at once. -/
def retryOnConflict : Nat → (Nat → Option KErr) → Option KErr
  | 0, _ => some KErr.conflict
  | steps + 1, fn =>
    match fn 0 with
    | some KErr.conflict => retryOnConflict steps (fun i => fn (i + 1))
    | r => r

/-- Number of attempts `retryOnConflict` makes with budget `steps`. -/
def retryAttempts : Nat → (Nat → Option KErr) → Nat
  | 0, _ => 0
  | steps + 1, fn =>
    match fn 0 with
    | some KErr.conflict => 1 + retryAttempts steps (fun i => fn (i + 1))
    | _ => 1

/-- Modelled from the spec: the bounded attempt count of the external default
retry policy (`retry.DefaultRetry`). -/
def defaultRetrySteps : Nat := 5

/-- The CompletionMarker annotation key
(`ServiceAccountRolesInitializedAnnotation`). -/
def saRolesInitKey : String := "openshift.io/sa.initialized-roles"

/-- Trace of the grant loop of `ensureNamespaceServiceAccountRoleBindings`:
for each table entry, one retried `AddRole` (an `addRoleGrant` effect), plus an
error-severity log when the retried add failed terminally.  `outcome g a` is the
store outcome of attempt `a` of grant `g`. -/
def grantEvents (nsName : String) (table : List RoleBindingSpec)
    (outcome : Nat → Nat → Option KErr) (g : Nat) : List Event :=
  match table with
  | [] => []
  | b :: rest =>
    Event.addRoleGrant nsName b.roleName ::
      ((match retryOnConflict defaultRetrySteps (outcome g) with
        | some _ =>
          [Event.logError ("Could not add service accounts to the " ++ b.roleName
            ++ " role in the " ++ nsName ++ " namespace")]
        | none => []) ++ grantEvents nsName rest outcome (g + 1))

/-- The `hasErrors` flag of the grant loop: true when some retried add failed. -/
def grantsFailed (table : List RoleBindingSpec)
    (outcome : Nat → Nat → Option KErr) (g : Nat) : Bool :=
  match table with
  | [] => false
  | _ :: rest =>
    (retryOnConflict defaultRetrySteps (outcome g)).isSome
      || grantsFailed rest outcome (g + 1)

/-- Log produced right after the marker-recording `Update`: conflicts are
tolerated silently, any other error is logged at error severity. -/
def markerUpdateLog (nsName : String) (updateRes : Option KErr) : List Event :=
  match updateRes with
  | some KErr.conflict => []
  | some _ =>
    [Event.logError ("Error recording adding service account roles to the "
      ++ nsName ++ " namespace")]
  | none => []

/-- `ensureNamespaceServiceAccountRoleBindings`: short-circuit when the
CompletionMarker annotation reads true; otherwise run every grant of the
bootstrap table through the conflict-retry helper, and only when none failed
write the marker annotation and update the namespace (logging non-conflict
update errors). -/
def ensureNamespaceServiceAccountRoleBindings (ns : NsObj)
    (table : List RoleBindingSpec) (outcome : Nat → Nat → Option KErr)
    (updateRes : Option KErr) : List Event :=
  if lookupAnn ns.annots saRolesInitKey = some "true" then []
  else if grantsFailed table outcome 0 then grantEvents ns.name table outcome 0
  else
    grantEvents ns.name table outcome 0
      ++ Event.updateNs ns.name (setAnn ns.annots saRolesInitKey "true")
        :: markerUpdateLog ns.name updateRes

/-- Oracle for `ensureOpenShiftSharedResourcesNamespace`: outcome of the
initial Get, outcome of the Create, and the collaborator responses of the
nested service-account initialization. -/
structure SharedNsEnv where
  getRes : Except KErr NsObj
  createRes : Except KErr NsObj
  saTable : List RoleBindingSpec
  saOutcome : Nat → Nat → Option KErr
  saUpdateRes : Option KErr

/-- `ensureOpenShiftSharedResourcesNamespace`: Get the namespace; only when
that reports NotFound, Create it; a create error is logged and aborts;
otherwise the created namespace is passed to the service-account role-binding
initialization. -/
def ensureOpenShiftSharedResourcesNamespace (nsName : String)
    (env : SharedNsEnv) : List Event :=
  Event.getNs nsName ::
    (if isNotFoundE env.getRes then
      Event.createNs nsName ::
        (match env.createRes with
         | Except.error _ => [Event.logError ("Error creating namespace " ++ nsName)]
         | Except.ok ns =>
           ensureNamespaceServiceAccountRoleBindings ns env.saTable env.saOutcome
             env.saUpdateRes)
    else [])

/-- Per-item error log of a cluster-role (or binding) reconcile call. -/
def reconcileErrLog (msg : String) (res : Option KErr) : List Event :=
  match res with
  | some _ => [Event.logError msg]
  | none => []

/-- Trace of the controller-roles reconcile loop of
`ensureOpenShiftInfraNamespace`. -/
def reconcileRolesEvents (roles : List String) (res : Nat → Option KErr)
    (i : Nat) : List Event :=
  match roles with
  | [] => []
  | r :: rest =>
    Event.reconcileClusterRole r ::
      (reconcileErrLog ("Could not reconcile " ++ r) (res i)
        ++ reconcileRolesEvents rest res (i + 1))

/-- Trace of the controller-role-bindings reconcile loop of
`ensureOpenShiftInfraNamespace`. -/
def reconcileBindingsEvents (roles : List String) (res : Nat → Option KErr)
    (i : Nat) : List Event :=
  match roles with
  | [] => []
  | r :: rest =>
    Event.reconcileClusterRoleBinding r ::
      (reconcileErrLog ("Could not reconcile " ++ r) (res i)
        ++ reconcileBindingsEvents rest res (i + 1))

/-- Oracle for `ensureOpenShiftInfraNamespace`. -/
structure InfraNsEnv where
  createRes : Except KErr NsObj
  getRes : Except KErr NsObj
  controllerRoles : List String
  controllerRoleBindings : List String
  reconcileRoleRes : Nat → Option KErr
  reconcileBindingRes : Nat → Option KErr
  saTable : List RoleBindingSpec
  saOutcome : Nat → Nat → Option KErr
  saUpdateRes : Option KErr

/-- Tail of `ensureOpenShiftInfraNamespace` once a namespace object is in
hand: reconcile controller roles and bindings, then initialize the
service-account role bindings. -/
def infraRest (ns : NsObj) (env : InfraNsEnv) : List Event :=
  reconcileRolesEvents env.controllerRoles env.reconcileRoleRes 0
    ++ reconcileBindingsEvents env.controllerRoleBindings env.reconcileBindingRes 0
    ++ ensureNamespaceServiceAccountRoleBindings ns env.saTable env.saOutcome
        env.saUpdateRes

/-- `ensureOpenShiftInfraNamespace`: Create first; on AlreadyExists fall back
to a Get (a Get failure is logged and aborts); any other create error is logged
and aborts; with a namespace in hand, run `infraRest`. -/
def ensureOpenShiftInfraNamespace (nsName : String) (env : InfraNsEnv) :
    List Event :=
  Event.createNs nsName ::
    (match env.createRes with
     | Except.error KErr.alreadyExists =>
       Event.getNs nsName ::
         (match env.getRes with
          | Except.error _ => [Event.logError ("Error getting namespace " ++ nsName)]
          | Except.ok ns => infraRest ns env)
     | Except.error _ => [Event.logError ("Error creating namespace " ++ nsName)]
     | Except.ok ns => infraRest ns env)

/-- Outcome of the bounded wait loop of
`ensureDefaultNamespaceServiceAccountRoles`. -/
inductive WaitResult where
  | found (ns : NsObj)
  | fatal
  | exhausted
  deriving Repr

/-- The wait loop (`for i := 0; i < 30; i++`): Get the default namespace; on
success stop with the namespace; on NotFound sleep one second and retry; on any
other error log at error severity and stop fatally; running out of attempts
leaves the namespace nil.  `get i` is the outcome of the i-th Get; the second
argument is the remaining attempt budget. -/
def defaultNsWait (get : Nat → Except KErr NsObj) : Nat → Nat →
    List Event × WaitResult
  | _, 0 => ([], WaitResult.exhausted)
  | i, fuel + 1 =>
    match get i with
    | Except.ok ns => ([Event.getNs "default"], WaitResult.found ns)
    | Except.error KErr.notFound =>
      let r := defaultNsWait get (i + 1) fuel
      (Event.getNs "default" :: Event.sleepSeconds 1 :: r.fst, r.snd)
    | Except.error _ =>
      ([Event.getNs "default",
        Event.logError "Error adding service account roles to the default namespace"],
       WaitResult.fatal)

/-- `ensureDefaultNamespaceServiceAccountRoles`: wait (at most 30 attempts,
one-second spacing) for the default namespace; if found, initialize its
service-account role bindings; a fatal Get error was already logged; exceeding
the bound logs that the namespace was not found. -/
def ensureDefaultNamespaceServiceAccountRoles (get : Nat → Except KErr NsObj)
    (saTable : List RoleBindingSpec) (saOutcome : Nat → Nat → Option KErr)
    (saUpdateRes : Option KErr) : List Event :=
  match defaultNsWait get 0 30 with
  | (evs, WaitResult.found ns) =>
    evs ++ ensureNamespaceServiceAccountRoleBindings ns saTable saOutcome
      saUpdateRes
  | (evs, WaitResult.fatal) => evs
  | (evs, WaitResult.exhausted) =>
    evs ++
      [Event.logError
        "Namespace default not found, could not initialize the default namespace"]

/-- Trace of the loop of `ensureDefaultSecurityContextConstraints`: for each
default SCC, a Create attempt; AlreadyExists is skipped silently; any other
error is logged at error severity and that object is skipped; success is logged
at info severity; the loop always proceeds to the remaining objects. -/
def sccEvents (sccs : List String) (createRes : Nat → Option KErr) (i : Nat) :
    List Event :=
  match sccs with
  | [] => []
  | name :: rest =>
    Event.createSCC name ::
      ((match createRes i with
        | some KErr.alreadyExists => []
        | some _ =>
          [Event.logError ("Unable to create default security context constraint "
            ++ name)]
        | none =>
          [Event.logInfo ("Created default security context constraint " ++ name)])
        ++ sccEvents rest createRes (i + 1))

/-- `ensureDefaultSecurityContextConstraints`. -/
def ensureDefaultSecurityContextConstraints (sccs : List String)
    (createRes : Nat → Option KErr) : List Event :=
  sccEvents sccs createRes 0

/-- `authorizationapi.PolicyName`, the fixed well-known name of the cluster
policy singleton. -/
def policyName : String := "default"

/-- `bootstrappolicy.DiscoveryRoleName`. -/
def discoveryRoleName : String := "system:discovery"

/-- Trace of one namespace of the legacy conversion loops of
`ensureComponentAuthorizationRules`: for each item, if conversion fails the
error is handled (`utilruntime.HandleError`) and the item skipped; otherwise a
Create is attempted and a create error is likewise handled; the loop never
aborts.  `mkCreate` is the store-create effect (role or role binding);
`convFails i j` says whether conversion of item `j` of namespace `i` fails;
`createRes i j` is the Create outcome. -/
def legacyItems (mkCreate : String → String → Event) (convMsg createMsg : String)
    (nsIdx : Nat) (nsName : String) (items : List String)
    (convFails : Nat → Nat → Bool) (createRes : Nat → Nat → Option KErr)
    (j : Nat) : List Event :=
  match items with
  | [] => []
  | r :: rest =>
    (if convFails nsIdx j then
      [Event.handleError (convMsg ++ r ++ " in " ++ nsName)]
    else
      mkCreate nsName r ::
        (match createRes nsIdx j with
         | some _ => [Event.handleError (createMsg ++ r ++ " in " ++ nsName)]
         | none => [])) ++
      legacyItems mkCreate convMsg createMsg nsIdx nsName rest convFails createRes
        (j + 1)

/-- The legacy conversion loop over all namespaces of a bootstrap table. -/
def legacyAll (mkCreate : String → String → Event) (convMsg createMsg : String)
    (tbl : List (String × List String)) (convFails : Nat → Nat → Bool)
    (createRes : Nat → Nat → Option KErr) (i : Nat) : List Event :=
  match tbl with
  | [] => []
  | p :: rest =>
    legacyItems mkCreate convMsg createMsg i p.fst p.snd convFails createRes 0
      ++ legacyAll mkCreate convMsg createMsg rest convFails createRes (i + 1)

/-- Oracle for `ensureComponentAuthorizationRules`. -/
structure CompAuthEnv where
  newRESTErr : Option String
  getPolicyRes : Except KErr Unit
  bootstrapPolicyFile : String
  overwriteRes : Option KErr
  nsRoles : List (String × List String)
  roleConvFails : Nat → Nat → Bool
  roleCreateRes : Nat → Nat → Option KErr
  nsRoleBindings : List (String × List String)
  rbConvFails : Nat → Nat → Bool
  rbCreateRes : Nat → Nat → Option KErr
  reconcileRoleErr : Option KErr
  reconcileBindingErr : Option KErr

/-- `ensureComponentAuthorizationRules`: build the cluster-policy storage (an
error there is logged and aborts); Get the cluster policy singleton; exactly
when that reports NotFound, seed the bootstrap policy from the policy file
(logging a failure) and best-effort create the converted legacy namespaced
roles and role bindings; otherwise only log at verbose level; in either case
finish by reconciling the discovery cluster role and its binding, logging
reconcile failures. -/
def ensureComponentAuthorizationRules (env : CompAuthEnv) : List Event :=
  match env.newRESTErr with
  | some _ => [Event.logError "Error creating policy storage"]
  | none =>
    Event.getClusterPolicy policyName ::
      ((if isNotFoundE env.getPolicyRes then
          Event.logInfo ("No cluster policy found. Creating bootstrap policy based on "
              ++ env.bootstrapPolicyFile) ::
            Event.overwriteBootstrapPolicy env.bootstrapPolicyFile ::
              ((match env.overwriteRes with
                | some _ => [Event.logError "Error creating bootstrap policy"]
                | none => []) ++
                legacyAll Event.createRole "unable to convert role "
                  "unable to reconcile role " env.nsRoles env.roleConvFails
                  env.roleCreateRes 0 ++
                legacyAll Event.createRoleBinding "unable to convert rolebinding "
                  "unable to reconcile rolebinding " env.nsRoleBindings
                  env.rbConvFails env.rbCreateRes 0)
        else
          [Event.logV2 "Ignoring bootstrap policy file because cluster policy found"])
        ++ (Event.reconcileClusterRole discoveryRoleName ::
            (reconcileErrLog "Could not auto reconcile roles" env.reconcileRoleErr
              ++ Event.reconcileClusterRoleBinding discoveryRoleName ::
                reconcileErrLog "Could not auto reconcile role bindings"
                  env.reconcileBindingErr)))

/-! ### Helper lemmas -/

theorem isNotFoundE_true_iff {α : Type} (x : Except KErr α) :
    isNotFoundE x = true ↔ x = Except.error KErr.notFound := by
  cases x with
  | ok a => simp [isNotFoundE]
  | error e => cases e <;> simp [isNotFoundE]

theorem isNotFoundE_false_of_ne {α : Type} (x : Except KErr α)
    (h : x ≠ Except.error KErr.notFound) : isNotFoundE x = false := by
  cases hx : isNotFoundE x
  · rfl
  · exact absurd ((isNotFoundE_true_iff x).mp hx) h

@[simp]
theorem mem_reconcileErrLog_iff (e : Event) (m : String) (r : Option KErr) :
    e ∈ reconcileErrLog m r ↔ (r.isSome ∧ e = Event.logError m) := by
  cases r <;> simp [reconcileErrLog]

theorem mem_markerUpdateLog (e : Event) (n : String) (r : Option KErr)
    (h : e ∈ markerUpdateLog n r) :
    e = Event.logError ("Error recording adding service account roles to the "
      ++ n ++ " namespace") := by
  match r with
  | none => simp [markerUpdateLog] at h
  | some KErr.conflict => simp [markerUpdateLog] at h
  | some KErr.notFound => simpa [markerUpdateLog] using h
  | some KErr.alreadyExists => simpa [markerUpdateLog] using h
  | some (KErr.otherErr m) => simpa [markerUpdateLog] using h

theorem grantEvents_shape (nsName : String) :
    ∀ (table : List RoleBindingSpec) (outcome : Nat → Nat → Option KErr)
      (g : Nat) (e : Event), e ∈ grantEvents nsName table outcome g →
      (∃ r, e = Event.addRoleGrant nsName r) ∨ (∃ m, e = Event.logError m) := by
  intro table
  induction table with
  | nil => intro outcome g e h; simp [grantEvents] at h
  | cons b rest ih =>
    intro outcome g e h
    simp only [grantEvents, List.mem_cons, List.mem_append] at h
    rcases h with h | h | h
    · exact Or.inl ⟨b.roleName, h⟩
    · cases hr : retryOnConflict defaultRetrySteps (outcome g) with
      | none => rw [hr] at h; simp at h
      | some er => rw [hr] at h; simp at h; exact Or.inr ⟨_, h⟩
    · exact ih outcome (g + 1) e h

theorem addRoleGrant_mem_grantEvents (nsName : String) :
    ∀ (table : List RoleBindingSpec) (outcome : Nat → Nat → Option KErr)
      (g j : Nat) (hj : j < table.length),
      Event.addRoleGrant nsName (table.get ⟨j, hj⟩).roleName ∈
        grantEvents nsName table outcome g := by
  intro table
  induction table with
  | nil => intro outcome g j hj; simp at hj
  | cons b rest ih =>
    intro outcome g j hj
    cases j with
    | zero => simp [grantEvents]
    | succ j' =>
      have hj' : j' < rest.length := by simpa using hj
      have hmem := ih outcome (g + 1) j' hj'
      simp only [grantEvents, List.mem_cons, List.mem_append, List.get]
      exact Or.inr (Or.inr hmem)

theorem saBindings_shape (ns : NsObj) (table : List RoleBindingSpec)
    (outcome : Nat → Nat → Option KErr) (updateRes : Option KErr) (e : Event)
    (h : e ∈ ensureNamespaceServiceAccountRoleBindings ns table outcome updateRes) :
    (∃ r, e = Event.addRoleGrant ns.name r) ∨ (∃ m, e = Event.logError m)
      ∨ (∃ a, e = Event.updateNs ns.name a) := by
  unfold ensureNamespaceServiceAccountRoleBindings at h
  by_cases h1 : lookupAnn ns.annots saRolesInitKey = some "true"
  · rw [if_pos h1] at h; simp at h
  · rw [if_neg h1] at h
    by_cases h2 : grantsFailed table outcome 0
    · rw [if_pos h2] at h
      rcases grantEvents_shape ns.name table outcome 0 e h with hc | hc
      · exact Or.inl hc
      · exact Or.inr (Or.inl hc)
    · rw [if_neg h2] at h
      simp only [List.mem_append, List.mem_cons] at h
      rcases h with h | h | h
      · rcases grantEvents_shape ns.name table outcome 0 e h with hc | hc
        · exact Or.inl hc
        · exact Or.inr (Or.inl hc)
      · exact Or.inr (Or.inr ⟨_, h⟩)
      · exact Or.inr (Or.inl ⟨_, mem_markerUpdateLog e ns.name updateRes h⟩)

theorem legacyItems_shape (mk : String → String → Event) (cm crm : String) :
    ∀ (items : List String) (i : Nat) (n : String) (cf : Nat → Nat → Bool)
      (cr : Nat → Nat → Option KErr) (j : Nat) (e : Event),
      e ∈ legacyItems mk cm crm i n items cf cr j →
      (∃ a b, e = mk a b) ∨ (∃ m, e = Event.handleError m) := by
  intro items
  induction items with
  | nil => intro i n cf cr j e h; simp [legacyItems] at h
  | cons r rest ih =>
    intro i n cf cr j e h
    simp only [legacyItems, List.mem_append] at h
    rcases h with h | h
    · by_cases hc : cf i j
      · rw [if_pos hc] at h; simp at h; exact Or.inr ⟨_, h⟩
      · rw [if_neg hc] at h
        simp only [List.mem_cons] at h
        rcases h with h | h
        · exact Or.inl ⟨n, r, h⟩
        · cases hcr : cr i j with
          | none => rw [hcr] at h; simp at h
          | some er => rw [hcr] at h; simp at h; exact Or.inr ⟨_, h⟩
    · exact ih i n cf cr (j + 1) e h

theorem legacyAll_shape (mk : String → String → Event) (cm crm : String) :
    ∀ (tbl : List (String × List String)) (cf : Nat → Nat → Bool)
      (cr : Nat → Nat → Option KErr) (i : Nat) (e : Event),
      e ∈ legacyAll mk cm crm tbl cf cr i →
      (∃ a b, e = mk a b) ∨ (∃ m, e = Event.handleError m) := by
  intro tbl
  induction tbl with
  | nil => intro cf cr i e h; simp [legacyAll] at h
  | cons p rest ih =>
    intro cf cr i e h
    simp only [legacyAll, List.mem_append] at h
    rcases h with h | h
    · exact legacyItems_shape mk cm crm p.snd i p.fst cf cr 0 e h
    · exact ih cf cr (i + 1) e h

theorem createSCC_mem_sccEvents :
    ∀ (sccs : List String) (createRes : Nat → Option KErr) (i j : Nat)
      (hj : j < sccs.length),
      Event.createSCC (sccs.get ⟨j, hj⟩) ∈ sccEvents sccs createRes i := by
  intro sccs
  induction sccs with
  | nil => intro createRes i j hj; simp at hj
  | cons name rest ih =>
    intro createRes i j hj
    cases j with
    | zero => simp [sccEvents]
    | succ j' =>
      have hj' : j' < rest.length := by simpa using hj
      have hmem := ih createRes (i + 1) j' hj'
      simp only [sccEvents, List.mem_cons, List.mem_append, List.get]
      exact Or.inr (Or.inr hmem)

/-- Events that are reads of the namespace store. -/
def isGetNs : Event → Bool
  | Event.getNs _ => true
  | _ => false

/-- Number of namespace-store reads in a trace. -/
def countGets (tr : List Event) : Nat := (tr.filter isGetNs).length

theorem countGets_append (a b : List Event) :
    countGets (a ++ b) = countGets a + countGets b := by
  simp [countGets, List.filter_append]

theorem countGets_sa_eq_zero (ns : NsObj) (table : List RoleBindingSpec)
    (outcome : Nat → Nat → Option KErr) (updateRes : Option KErr) :
    countGets (ensureNamespaceServiceAccountRoleBindings ns table outcome updateRes)
      = 0 := by
  have hfil : (ensureNamespaceServiceAccountRoleBindings ns table outcome
      updateRes).filter isGetNs = [] := by
    rw [List.filter_eq_nil_iff]
    intro e he
    rcases saBindings_shape ns table outcome updateRes e he with ⟨r, hr⟩ | ⟨m, hm⟩ | ⟨a, ha⟩
    · rw [hr]; simp [isGetNs]
    · rw [hm]; simp [isGetNs]
    · rw [ha]; simp [isGetNs]
  simp [countGets, hfil]

theorem defaultNsWait_gets_le (get : Nat → Except KErr NsObj) :
    ∀ (fuel i : Nat), countGets (defaultNsWait get i fuel).fst ≤ fuel := by
  intro fuel
  induction fuel with
  | zero => intro i; simp [defaultNsWait, countGets]
  | succ f ih =>
    intro i
    cases hg : get i with
    | ok ns => simp [defaultNsWait, hg, countGets, isGetNs, List.filter]
    | error e =>
      cases e with
      | notFound =>
        have := ih (i + 1)
        simp only [defaultNsWait, hg]
        simpa [countGets, isGetNs, List.filter] using Nat.succ_le_succ this
      | alreadyExists => simp [defaultNsWait, hg, countGets, isGetNs, List.filter]
      | conflict => simp [defaultNsWait, hg, countGets, isGetNs, List.filter]
      | otherErr m => simp [defaultNsWait, hg, countGets, isGetNs, List.filter]

/-- The get-sleep rounds produced by a run of the wait loop in which the
namespace is never seen. -/
def waitRounds : Nat → List Event
  | 0 => []
  | n + 1 => Event.getNs "default" :: Event.sleepSeconds 1 :: waitRounds n

theorem defaultNsWait_never (get : Nat → Except KErr NsObj)
    (h : ∀ j, get j = Except.error KErr.notFound) :
    ∀ (fuel i : Nat), defaultNsWait get i fuel = (waitRounds fuel, WaitResult.exhausted) := by
  intro fuel
  induction fuel with
  | zero => intro i; simp [defaultNsWait, waitRounds]
  | succ f ih =>
    intro i
    simp [defaultNsWait, h i, waitRounds, ih (i + 1)]

theorem defaultNsWait_fatal (get : Nat → Except KErr NsObj) (e : KErr)
    (he : e ≠ KErr.notFound) :
    ∀ (k fuel i : Nat), k < fuel →
      (∀ j, j < k → get (i + j) = Except.error KErr.notFound) →
      get (i + k) = Except.error e →
      defaultNsWait get i fuel =
        (waitRounds k ++ [Event.getNs "default",
          Event.logError "Error adding service account roles to the default namespace"],
         WaitResult.fatal) := by
  intro k
  induction k with
  | zero =>
    intro fuel i hk hpre hat
    cases fuel with
    | zero => omega
    | succ f =>
      have hat0 : get i = Except.error e := by simpa using hat
      cases e with
      | notFound => exact absurd rfl he
      | alreadyExists => simp [defaultNsWait, hat0, waitRounds]
      | conflict => simp [defaultNsWait, hat0, waitRounds]
      | otherErr m => simp [defaultNsWait, hat0, waitRounds]
  | succ k' ih =>
    intro fuel i hk hpre hat
    cases fuel with
    | zero => omega
    | succ f =>
      have h0 : get i = Except.error KErr.notFound := by
        have := hpre 0 (Nat.succ_pos k')
        simpa using this
      have hpre' : ∀ j, j < k' → get (i + 1 + j) = Except.error KErr.notFound := by
        intro j hj
        have := hpre (j + 1) (by omega)
        have harith : i + (j + 1) = i + 1 + j := by omega
        rwa [harith] at this
      have hat' : get (i + 1 + k') = Except.error e := by
        have harith : i + (k' + 1) = i + 1 + k' := by omega
        rwa [harith] at hat
      have hrec := ih f (i + 1) (by omega) hpre' hat'
      simp [defaultNsWait, h0, hrec, waitRounds]

theorem compAuth_present_trace (env : CompAuthEnv) (h : env.newRESTErr = none)
    (hb : isNotFoundE env.getPolicyRes = false) :
    ensureComponentAuthorizationRules env =
      Event.getClusterPolicy policyName ::
        Event.logV2 "Ignoring bootstrap policy file because cluster policy found" ::
          Event.reconcileClusterRole discoveryRoleName ::
            (reconcileErrLog "Could not auto reconcile roles" env.reconcileRoleErr
              ++ Event.reconcileClusterRoleBinding discoveryRoleName ::
                reconcileErrLog "Could not auto reconcile role bindings"
                  env.reconcileBindingErr) := by
  unfold ensureComponentAuthorizationRules
  rw [h]
  simp [hb]

/-! ### Claims -/

/-- Claim C3: for every namespace whose CompletionMarker annotation reads true,
the service-account role initializer returns immediately as a no-op: its trace
is empty, so it performs no grant additions and no writes to the namespace or
any role binding. -/
theorem c3_marker_true_is_noop (ns : NsObj) (table : List RoleBindingSpec)
    (outcome : Nat → Nat → Option KErr) (updateRes : Option KErr)
    (h : lookupAnn ns.annots saRolesInitKey = some "true") :
    ensureNamespaceServiceAccountRoleBindings ns table outcome updateRes = [] := by
  simp [ensureNamespaceServiceAccountRoleBindings, h]

theorem c3_witness :
    ensureNamespaceServiceAccountRoleBindings
      ⟨"default", [("openshift.io/sa.initialized-roles", "true")]⟩
      [⟨"admin", "", ["system:serviceaccount:default:deployer"]⟩]
      (fun _ _ => none) none = [] :=
  c3_marker_true_is_noop _ _ _ _ (by decide)

/-- Claim C9: in `ensureOpenShiftSharedResourcesNamespace`, the
service-account role-binding initialization runs only on the path where this
call created the namespace: whenever the initial get does not report NotFound
(it succeeded, or failed with any other error), the whole trace is just that
one get — no create, no grants, no namespace write, and no log call. -/
theorem c9_shared_skips_unless_notfound (nsName : String) (env : SharedNsEnv)
    (h : isNotFoundE env.getRes = false) :
    ensureOpenShiftSharedResourcesNamespace nsName env = [Event.getNs nsName] := by
  simp [ensureOpenShiftSharedResourcesNamespace, h]

theorem c9_witness :
    ensureOpenShiftSharedResourcesNamespace "openshift"
      ⟨Except.error KErr.conflict, Except.ok ⟨"openshift", []⟩, [],
        fun _ _ => none, none⟩ = [Event.getNs "openshift"] :=
  c9_shared_skips_unless_notfound "openshift" _ (by decide)

/-- Claim C2: the CompletionMarker is written as true only after every grant in
the bootstrap table succeeded.  If some grant failed terminally, the trace is
exactly the grant loop — in particular it contains no namespace update, so the
annotation is left unchanged; if all grants succeeded, the namespace update
carrying the marker annotation follows all grant events. -/
theorem c2_marker_only_after_success (ns : NsObj) (table : List RoleBindingSpec)
    (outcome : Nat → Nat → Option KErr) (updateRes : Option KErr)
    (h : lookupAnn ns.annots saRolesInitKey ≠ some "true") :
    (grantsFailed table outcome 0 = true →
      ensureNamespaceServiceAccountRoleBindings ns table outcome updateRes =
          grantEvents ns.name table outcome 0
        ∧ ∀ n a, Event.updateNs n a ∉
            ensureNamespaceServiceAccountRoleBindings ns table outcome updateRes)
    ∧ (grantsFailed table outcome 0 = false →
      ensureNamespaceServiceAccountRoleBindings ns table outcome updateRes =
        grantEvents ns.name table outcome 0
          ++ Event.updateNs ns.name (setAnn ns.annots saRolesInitKey "true")
            :: markerUpdateLog ns.name updateRes) := by
  constructor
  · intro hf
    have htr : ensureNamespaceServiceAccountRoleBindings ns table outcome updateRes
        = grantEvents ns.name table outcome 0 := by
      simp [ensureNamespaceServiceAccountRoleBindings, h, hf]
    refine ⟨htr, ?_⟩
    intro n a hmem
    rw [htr] at hmem
    rcases grantEvents_shape ns.name table outcome 0 _ hmem with ⟨r, hr⟩ | ⟨m, hm⟩
    · exact Event.noConfusion hr
    · exact Event.noConfusion hm
  · intro hf
    simp [ensureNamespaceServiceAccountRoleBindings, h, hf]

theorem c2_witness :
    ensureNamespaceServiceAccountRoleBindings ⟨"default", []⟩
        [⟨"admin", "", ["system:serviceaccount:default:deployer"]⟩]
        (fun _ _ => none) none =
      grantEvents "default"
          [⟨"admin", "", ["system:serviceaccount:default:deployer"]⟩]
          (fun _ _ => none) 0
        ++ Event.updateNs "default" (setAnn [] saRolesInitKey "true")
          :: markerUpdateLog "default" none :=
  (c2_marker_only_after_success ⟨"default", []⟩ _ _ _ (by decide)).2 (by decide)

/-- Claim C8: each grant addition is wrapped in the bounded conflict-retry
helper, and failures are isolated per grant.  Every grant in the table produces
its add attempt in the trace no matter how other grants fail; the retry helper
retries after a conflict, returns a non-conflict error immediately (terminal
for that one grant), and never makes more attempts than its bounded budget. -/
theorem c8_grants_retried_and_isolated (ns : NsObj) (table : List RoleBindingSpec)
    (outcome : Nat → Nat → Option KErr) (updateRes : Option KErr)
    (h : lookupAnn ns.annots saRolesInitKey ≠ some "true") :
    (∀ j (hj : j < table.length),
       Event.addRoleGrant ns.name (table.get ⟨j, hj⟩).roleName ∈
         ensureNamespaceServiceAccountRoleBindings ns table outcome updateRes)
    ∧ (∀ (fn : Nat → Option KErr) (n : Nat), fn 0 = some KErr.conflict →
        retryOnConflict (n + 1) fn = retryOnConflict n (fun i => fn (i + 1)))
    ∧ (∀ (fn : Nat → Option KErr) (e : KErr) (n : Nat), fn 0 = some e →
        e ≠ KErr.conflict → retryOnConflict (n + 1) fn = some e)
    ∧ (∀ (fn : Nat → Option KErr) (n : Nat), retryAttempts n fn ≤ n) := by
  refine ⟨?_, ?_, ?_, ?_⟩
  · intro j hj
    have hmem := addRoleGrant_mem_grantEvents ns.name table outcome 0 j hj
    by_cases hf : grantsFailed table outcome 0
    · simpa [ensureNamespaceServiceAccountRoleBindings, h, hf] using hmem
    · simp only [ensureNamespaceServiceAccountRoleBindings, if_neg h,
        Bool.not_eq_true] at *
      rw [if_neg (by simp [hf])]
      exact List.mem_append_left _ hmem
  · intro fn n hfn
    simp [retryOnConflict, hfn]
  · intro fn e n hfn hne
    cases e with
    | conflict => exact absurd rfl hne
    | notFound => simp [retryOnConflict, hfn]
    | alreadyExists => simp [retryOnConflict, hfn]
    | otherErr m => simp [retryOnConflict, hfn]
  · intro fn n
    induction n generalizing fn with
    | zero => simp [retryAttempts]
    | succ k ih =>
      cases hf : fn 0 with
      | none => simp [retryAttempts, hf]
      | some e =>
        cases e with
        | conflict =>
          have := ih fun i => fn (i + 1)
          simp only [retryAttempts, hf]
          omega
        | notFound => simp [retryAttempts, hf]
        | alreadyExists => simp [retryAttempts, hf]
        | otherErr m => simp [retryAttempts, hf]

theorem c8_witness :
    Event.addRoleGrant "kube-system" "admin" ∈
      ensureNamespaceServiceAccountRoleBindings ⟨"kube-system", []⟩
        [⟨"admin", "", ["system:serviceaccount:kube-system:sa"]⟩]
        (fun _ _ => some (KErr.otherErr "backend down")) none :=
  (c8_grants_retried_and_isolated ⟨"kube-system", []⟩ _ _ _ (by decide)).1 0
    (by decide)

/-- Claim C7: for each default security-policy object, a create is attempted;
already-exists is treated as success for that object and produces no error
log; any other error produces an error log and only that object is skipped;
in every case the loop proceeds to the remaining objects (each object of the
list gets its create attempt in the trace). -/
theorem c7_scc_create_loop (sccs : List String) (createRes : Nat → Option KErr) :
    (∀ j (hj : j < sccs.length),
       Event.createSCC (sccs.get ⟨j, hj⟩) ∈
         ensureDefaultSecurityContextConstraints sccs createRes)
    ∧ (∀ name rest i, createRes i = some KErr.alreadyExists →
        sccEvents (name :: rest) createRes i =
          Event.createSCC name :: sccEvents rest createRes (i + 1))
    ∧ (∀ name rest i e, createRes i = some e → e ≠ KErr.alreadyExists →
        sccEvents (name :: rest) createRes i =
          Event.createSCC name
            :: Event.logError
                ("Unable to create default security context constraint " ++ name)
              :: sccEvents rest createRes (i + 1)) := by
  refine ⟨?_, ?_, ?_⟩
  · intro j hj
    exact createSCC_mem_sccEvents sccs createRes 0 j hj
  · intro name rest i hres
    simp [sccEvents, hres]
  · intro name rest i e hres hne
    cases e with
    | alreadyExists => exact absurd rfl hne
    | notFound => simp [sccEvents, hres]
    | conflict => simp [sccEvents, hres]
    | otherErr m => simp [sccEvents, hres]

theorem c7_witness :
    sccEvents ["privileged", "restricted"] (fun _ => some KErr.alreadyExists) 0 =
      Event.createSCC "privileged"
        :: sccEvents ["restricted"] (fun _ => some KErr.alreadyExists) 1 :=
  (c7_scc_create_loop ["privileged", "restricted"]
    (fun _ => some KErr.alreadyExists)).2.1 "privileged" ["restricted"] 0 rfl

/-- Claim C4 counterexample: `ensureOpenShiftSharedResourcesNamespace` does
not attempt to create the namespace first.  When the initial get succeeds
(namespace already present), its whole trace is the single get, with no create
attempt at all — refuting the claim that every ensure operation first attempts
a create. -/
theorem c4_counterexample :
    ensureOpenShiftSharedResourcesNamespace "openshift"
        ⟨Except.ok ⟨"openshift", []⟩, Except.ok ⟨"openshift", []⟩, [],
          fun _ _ => none, none⟩ = [Event.getNs "openshift"]
      ∧ Event.createNs "openshift" ∉
          ensureOpenShiftSharedResourcesNamespace "openshift"
            ⟨Except.ok ⟨"openshift", []⟩, Except.ok ⟨"openshift", []⟩, [],
              fun _ _ => none, none⟩ := by
  constructor
  · rfl
  · decide

/-- Claim C4 (amended): `ensureOpenShiftInfraNamespace` first attempts to
create the namespace; on already-exists it falls back to a fetch-by-name and
continues with the fetched namespace; any other creation error is logged and
the step aborts with no namespace — the dependent per-namespace initialization
does not run.  `ensureOpenShiftSharedResourcesNamespace` instead begins with a
get and attempts creation only when that get reports not-found; a creation
failure there is likewise logged and aborts without per-namespace
initialization. -/
theorem c4_create_or_get_first (nsName : String) (envI : InfraNsEnv)
    (envS : SharedNsEnv) :
    ((ensureOpenShiftInfraNamespace nsName envI).head? =
        some (Event.createNs nsName))
    ∧ (∀ ns, envI.createRes = Except.error KErr.alreadyExists →
        envI.getRes = Except.ok ns →
        ensureOpenShiftInfraNamespace nsName envI =
          Event.createNs nsName :: Event.getNs nsName :: infraRest ns envI)
    ∧ (∀ e, e ≠ KErr.alreadyExists → envI.createRes = Except.error e →
        ensureOpenShiftInfraNamespace nsName envI =
          [Event.createNs nsName,
            Event.logError ("Error creating namespace " ++ nsName)])
    ∧ ((ensureOpenShiftSharedResourcesNamespace nsName envS).head? =
        some (Event.getNs nsName))
    ∧ (isNotFoundE envS.getRes = false →
        ensureOpenShiftSharedResourcesNamespace nsName envS = [Event.getNs nsName])
    ∧ (∀ e, envS.getRes = Except.error KErr.notFound →
        envS.createRes = Except.error e →
        ensureOpenShiftSharedResourcesNamespace nsName envS =
          [Event.getNs nsName, Event.createNs nsName,
            Event.logError ("Error creating namespace " ++ nsName)]) := by
  refine ⟨?_, ?_, ?_, ?_, ?_, ?_⟩
  · simp [ensureOpenShiftInfraNamespace]
  · intro ns hc hg
    simp [ensureOpenShiftInfraNamespace, hc, hg]
  · intro e hne hc
    cases e with
    | alreadyExists => exact absurd rfl hne
    | notFound => simp [ensureOpenShiftInfraNamespace, hc]
    | conflict => simp [ensureOpenShiftInfraNamespace, hc]
    | otherErr m => simp [ensureOpenShiftInfraNamespace, hc]
  · simp [ensureOpenShiftSharedResourcesNamespace]
  · intro hb
    simp [ensureOpenShiftSharedResourcesNamespace, hb]
  · intro e hg hc
    have hb : isNotFoundE envS.getRes = true := by rw [hg]; rfl
    simp [ensureOpenShiftSharedResourcesNamespace, hb, hc]

theorem c4_witness :
    ensureOpenShiftInfraNamespace "openshift-infra"
        ⟨Except.error KErr.conflict, Except.ok ⟨"openshift-infra", []⟩, [], [],
          fun _ => none, fun _ => none, [], fun _ _ => none, none⟩ =
      [Event.createNs "openshift-infra",
        Event.logError ("Error creating namespace " ++ "openshift-infra")] :=
  (c4_create_or_get_first "openshift-infra"
      ⟨Except.error KErr.conflict, Except.ok ⟨"openshift-infra", []⟩, [], [],
        fun _ => none, fun _ => none, [], fun _ _ => none, none⟩
      ⟨Except.ok ⟨"openshift", []⟩, Except.ok ⟨"openshift", []⟩, [],
        fun _ _ => none, none⟩).2.2.1 KErr.conflict (by decide) rfl

/-- Claim C6: on every invocation of `ensureComponentAuthorizationRules` that
reaches the existence check (policy storage was constructed), and so regardless
of whether the seeding branch or the skip branch was taken, the trace contains
the reconciliation of the discovery cluster role and of its binding. -/
theorem c6_discovery_always_reconciled (env : CompAuthEnv)
    (h : env.newRESTErr = none) :
    Event.reconcileClusterRole discoveryRoleName ∈
        ensureComponentAuthorizationRules env
      ∧ Event.reconcileClusterRoleBinding discoveryRoleName ∈
          ensureComponentAuthorizationRules env := by
  unfold ensureComponentAuthorizationRules
  rw [h]
  constructor <;> simp

theorem c6_witness :
    Event.reconcileClusterRole discoveryRoleName ∈
      ensureComponentAuthorizationRules
        ⟨none, Except.ok (), "bootstrap.json", none, [], fun _ _ => false,
          fun _ _ => none, [], fun _ _ => false, fun _ _ => none, none, none⟩ :=
  (c6_discovery_always_reconciled _ rfl).1

/-- Claim C5: the default-namespace wait path performs at most 30
fetch-by-name attempts.  If the namespace never appears, the trace is exactly
30 get-sleep rounds (one-second spacing) followed by the bound-exceeded error
log — it terminates without initializing any role bindings.  If some attempt
fails with a non-NotFound error after only NotFound outcomes, the trace is the
preceding rounds, the failing get and the error log — again aborting without
role-binding initialization. -/
theorem c5_bounded_wait (get : Nat → Except KErr NsObj)
    (saTable : List RoleBindingSpec) (saOutcome : Nat → Nat → Option KErr)
    (saUpdateRes : Option KErr) :
    countGets (ensureDefaultNamespaceServiceAccountRoles get saTable saOutcome
        saUpdateRes) ≤ 30
    ∧ ((∀ j, get j = Except.error KErr.notFound) →
        ensureDefaultNamespaceServiceAccountRoles get saTable saOutcome saUpdateRes =
          waitRounds 30 ++
            [Event.logError
              "Namespace default not found, could not initialize the default namespace"])
    ∧ (∀ k e, k < 30 → (∀ j, j < k → get j = Except.error KErr.notFound) →
        get k = Except.error e → e ≠ KErr.notFound →
        ensureDefaultNamespaceServiceAccountRoles get saTable saOutcome saUpdateRes =
          waitRounds k ++
            [Event.getNs "default",
              Event.logError
                "Error adding service account roles to the default namespace"]) := by
  refine ⟨?_, ?_, ?_⟩
  · have hle := defaultNsWait_gets_le get 30 0
    unfold ensureDefaultNamespaceServiceAccountRoles
    cases hw : defaultNsWait get 0 30 with
    | mk evs res =>
      rw [hw] at hle
      cases res with
      | found ns =>
        simp only [countGets_append, countGets_sa_eq_zero]
        simpa using hle
      | fatal => simpa using hle
      | exhausted =>
        rw [countGets_append]
        have hz : countGets
            [Event.logError
              "Namespace default not found, could not initialize the default namespace"]
            = 0 := rfl
        simp only [hz]
        simpa using hle
  · intro hnever
    unfold ensureDefaultNamespaceServiceAccountRoles
    rw [defaultNsWait_never get hnever 30 0]
  · intro k e hk hpre hat hne
    have hpre' : ∀ j, j < k → get (0 + j) = Except.error KErr.notFound := by
      intro j hj
      simpa using hpre j hj
    have hat' : get (0 + k) = Except.error e := by simpa using hat
    unfold ensureDefaultNamespaceServiceAccountRoles
    rw [defaultNsWait_fatal get e hne k 30 0 hk hpre' hat']

theorem c5_witness :
    ensureDefaultNamespaceServiceAccountRoles
        (fun _ => Except.error KErr.notFound) [] (fun _ _ => none) none =
      waitRounds 30 ++
        [Event.logError
          "Namespace default not found, could not initialize the default namespace"] :=
  (c5_bounded_wait (fun _ => Except.error KErr.notFound) [] (fun _ _ => none)
    none).2.1 (fun _ => rfl)

/-- Claim C1: `ensureComponentAuthorizationRules` seeds the cluster policy
document from the bootstrap policy file if and only if the existence check on
the well-known singleton reported NotFound; in every other outcome of the
check, seeding and the legacy role/role-binding conversion are skipped
entirely, so an existing document is never overwritten. -/
theorem c1_seed_iff_absent (env : CompAuthEnv) (h : env.newRESTErr = none) :
    (Event.overwriteBootstrapPolicy env.bootstrapPolicyFile ∈
        ensureComponentAuthorizationRules env ↔
      env.getPolicyRes = Except.error KErr.notFound)
    ∧ (env.getPolicyRes ≠ Except.error KErr.notFound →
        (∀ f, Event.overwriteBootstrapPolicy f ∉
            ensureComponentAuthorizationRules env)
        ∧ (∀ a b, Event.createRole a b ∉ ensureComponentAuthorizationRules env)
        ∧ (∀ a b, Event.createRoleBinding a b ∉
            ensureComponentAuthorizationRules env)) := by
  by_cases hnf : env.getPolicyRes = Except.error KErr.notFound
  · have hb : isNotFoundE env.getPolicyRes = true := (isNotFoundE_true_iff _).mpr hnf
    constructor
    · constructor
      · intro _; exact hnf
      · intro _
        unfold ensureComponentAuthorizationRules
        rw [h]
        simp [hb]
    · intro hcon; exact absurd hnf hcon
  · have hb := isNotFoundE_false_of_ne env.getPolicyRes hnf
    have htr := compAuth_present_trace env h hb
    have hnoOv : ∀ f, Event.overwriteBootstrapPolicy f ∉
        ensureComponentAuthorizationRules env := by
      intro f hm
      rw [htr] at hm
      simp at hm
    refine ⟨⟨fun hm => absurd hm (hnoOv _), fun hg => absurd hg hnf⟩, fun _ => ⟨hnoOv, ?_, ?_⟩⟩
    · intro a b hm
      rw [htr] at hm
      simp at hm
    · intro a b hm
      rw [htr] at hm
      simp at hm

theorem c1_witness :
    Event.overwriteBootstrapPolicy "bootstrap.json" ∈
      ensureComponentAuthorizationRules
        ⟨none, Except.error KErr.notFound, "bootstrap.json", none, [],
          fun _ _ => false, fun _ _ => none, [], fun _ _ => false,
          fun _ _ => none, none, none⟩ :=
  (c1_seed_iff_absent _ rfl).1.mpr rfl

/-- Claim C10: a non-NotFound error from the cluster-policy existence check is
handled identically to the document-present case: the full trace is the same
as with a successful get, it contains the verbose-level skip log, the error is
never logged at error severity (when the final reconciliations succeed, no
error-severity log appears at all), and execution proceeds to the discovery
role/binding reconciliation. -/
theorem c10_other_get_error_like_present (env : CompAuthEnv) (e : KErr)
    (h : env.newRESTErr = none) (he : e ≠ KErr.notFound) :
    ensureComponentAuthorizationRules { env with getPolicyRes := Except.error e } =
      ensureComponentAuthorizationRules { env with getPolicyRes := Except.ok () }
    ∧ Event.logV2 "Ignoring bootstrap policy file because cluster policy found" ∈
        ensureComponentAuthorizationRules { env with getPolicyRes := Except.error e }
    ∧ (env.reconcileRoleErr = none → env.reconcileBindingErr = none →
        ∀ m, Event.logError m ∉
          ensureComponentAuthorizationRules { env with getPolicyRes := Except.error e })
    ∧ Event.reconcileClusterRole discoveryRoleName ∈
        ensureComponentAuthorizationRules { env with getPolicyRes := Except.error e } := by
  have hb1 : isNotFoundE (Except.error e : Except KErr Unit) = false := by
    cases e with
    | notFound => exact absurd rfl he
    | alreadyExists => rfl
    | conflict => rfl
    | otherErr m => rfl
  have t1 := compAuth_present_trace { env with getPolicyRes := Except.error e } h hb1
  have t2 := compAuth_present_trace { env with getPolicyRes := Except.ok () } h rfl
  refine ⟨t1.trans t2.symm, ?_, ?_, ?_⟩
  · rw [t1]; simp
  · intro h1 h2 m hm
    rw [t1] at hm
    simp [h1, h2] at hm
  · rw [t1]; simp

theorem c10_witness :
    ensureComponentAuthorizationRules
        ⟨none, Except.error KErr.conflict, "bootstrap.json", none, [],
          fun _ _ => false, fun _ _ => none, [], fun _ _ => false,
          fun _ _ => none, none, none⟩ =
      ensureComponentAuthorizationRules
        ⟨none, Except.ok (), "bootstrap.json", none, [], fun _ _ => false,
          fun _ _ => none, [], fun _ _ => false, fun _ _ => none, none, none⟩ :=
  (c10_other_get_error_like_present
      ⟨none, Except.ok (), "bootstrap.json", none, [], fun _ _ => false,
        fun _ _ => none, [], fun _ _ => false, fun _ _ => none, none, none⟩
      KErr.conflict rfl (by decide)).1

end Ensure
